import Mathlib

/-!
Verification of the choropleth-map app (`src/App.tsx`).

The app's domain logic is embedded shallowly:
  * the d3 `scaleThreshold` color classifier (`COLOR_SCALE`, `getFillColor`),
  * the camera states and the main→minimap view synchronizer
    (`INITIAL_VIEW_STATE`, `onViewStateChange`),
  * the tooltip formatter (`getTooltip`),
  * the one-shot dataset load and the loading render guard.

JS numbers are modelled by ℚ (claims only concern finite values); colors are
lists of naturals; a nullable JS value is an `Option`.
-/

namespace MonApp

/-- An RGB(A) color, as deck.gl's `Color` array of channel values. -/
abbrev Color := List ℕ

/-- The d3 `scaleThreshold` bucket lookup: `bisectRight(domain, x)` on an
ascending `domain`, i.e. the number of boundaries `≤ x`; boundary values
fall into the upper bucket (half-open intervals `[low, high)`). -/
def thresholdIndex (domain : List ℚ) (x : ℚ) : ℕ :=
  match domain with
  | [] => 0
  | b :: rest => if x < b then 0 else thresholdIndex rest x + 1

/-- The `.domain([100, 200, 300, 500, 800])` of `COLOR_SCALE` (App.tsx line 12). -/
def COLOR_SCALE_domain : List ℚ := [100, 200, 300, 500, 800]

/-- The `.range([...])` of `COLOR_SCALE`: six fixed colors (App.tsx lines 13-20). -/
def COLOR_SCALE_range : List Color :=
  [[254, 235, 226],
   [252, 197, 192],
   [250, 159, 181],
   [247, 104, 161],
   [197, 27, 138],
   [122, 1, 119]]

/-- `COLOR_SCALE = scaleThreshold().domain(...).range(...)` applied to a number
(App.tsx lines 11-20). -/
def COLOR_SCALE (x : ℚ) : Color :=
  COLOR_SCALE_range.getD (thresholdIndex COLOR_SCALE_domain x) []

/-- `getFillColor = d => d == null ? [255,255,255] : COLOR_SCALE(d)`
(App.tsx lines 22-23). JS `d == null` is true exactly for `null` and
`undefined`; both are modelled by `none`. -/
def getFillColor (d : Option ℚ) : Color :=
  match d with
  | none => [255, 255, 255]
  | some v => COLOR_SCALE v

/-- The main camera's `MapViewState` (the fields the app sets; App.tsx lines 26-33). -/
structure MainViewState where
  latitude : ℚ
  longitude : ℚ
  zoom : ℚ
  maxZoom : ℚ
  pitch : ℚ
  bearing : ℚ
deriving DecidableEq, Repr

/-- The minimap camera's `MapViewState` (App.tsx lines 34-38). -/
structure MinimapViewState where
  latitude : ℚ
  longitude : ℚ
  zoom : ℚ
deriving DecidableEq, Repr

/-- The combined `{ main, minimap }` view state held by the `App` component. -/
structure AppViewState where
  main : MainViewState
  minimap : MinimapViewState
deriving DecidableEq, Repr

/-- `INITIAL_VIEW_STATE` (App.tsx lines 25-39). -/
def INITIAL_VIEW_STATE : AppViewState :=
  { main := { latitude := 40.7128, longitude := -74.0060, zoom := 10,
              maxZoom := 16, pitch := 60, bearing := -90 },
    minimap := { latitude := 40.7128, longitude := -74.0060, zoom := 4 } }

/-- `onViewStateChange` (App.tsx lines 91-100): replaces `main` wholesale with
the new view state and copies its latitude/longitude into the prior minimap
state, keeping the minimap's other fields. -/
def onViewStateChange (s : AppViewState) (newViewState : MainViewState) : AppViewState :=
  { main := newViewState,
    minimap := { s.minimap with
                 longitude := newViewState.longitude,
                 latitude := newViewState.latitude } }

/-- A session: the combined view state after a sequence of main-camera update
events, in order. -/
def applyViewChanges (s : AppViewState) (l : List MainViewState) : AppViewState :=
  l.foldl onViewStateChange s

/-- The GeoJSON feature properties the app reads: `County_min`, `Name_min`,
`price_median`, `TAUG2`; each may be absent. -/
structure FeatureProps where
  County_min : Option String
  Name_min : Option String
  price_median : Option ℕ
  TAUG2 : Option ℚ
deriving Repr

/-- Group a reversed digit list in threes with `,` separators. -/
def groupRevDigits : List Char → List Char
  | a :: b :: c :: d :: rest => a :: b :: c :: ',' :: groupRevDigits (d :: rest)
  | l => l

/-- JS `Number.prototype.toLocaleString()` on a nonnegative integer in the
en-US default locale: decimal digits with `,` thousands separators. -/
def toLocaleString (n : ℕ) : String :=
  String.mk ((groupRevDigits (Nat.repr n).data.reverse).reverse)

/-- The HTML template string built by `getTooltip` (App.tsx lines 64-71),
with the JS template interpolations spliced in by string append. -/
def tooltipHtml (props : FeatureProps) : String :=
  "\n      <div style=\"color: white; font-weight: bold; font-size: 18px\">"
    ++ props.County_min.getD ""
    ++ "</div>\n      <div style=\"color: white; font-weight: normal;\">"
    ++ props.Name_min.getD ""
    ++ "</div>\n      <div style=\"color: lightgray;\"><b>Median sales values:</b></div>\n      <div style=\"color: lightgray;\">$"
    ++ (match props.price_median with
        | some p => toLocaleString p
        | none => "N/A")
    ++ " USD</div>\n    "

/-- `getTooltip` (App.tsx lines 59-72): the picked `object` may be `null`
(nothing picked), and a picked feature's `properties` may itself be `null`;
both return `null` (no tooltip), else the HTML fragment. -/
def getTooltip (object : Option (Option FeatureProps)) : Option String :=
  match object with
  | none => none
  | some none => none
  | some (some props) => some (tooltipHtml props)

/-- `s` contains `core` as a contiguous substring. -/
def ContainsSub (s core : String) : Prop :=
  ∃ a b, s = a ++ core ++ b

/-- Outcome of the one-shot `fetch('./data/USA.geojson')` promise chain
(App.tsx lines 79-83): either parsed features, or a rejection (network or
parse error). -/
inductive FetchOutcome (α : Type) where
  | ok (v : α) : FetchOutcome α
  | error (msg : String) : FetchOutcome α
deriving Repr

/-- The `data` state after the load effect settles. The chain
`fetch(...).then(res => res.json()).then(geojson => setData(geojson.features))`
has no rejection handler, so on any error `setData` is never called and
`data` keeps its initial `null`. -/
def dataAfterLoad (r : FetchOutcome (List FeatureProps)) : Option (List FeatureProps) :=
  match r with
  | .ok features => some features
  | .error _ => none

/-- The render guard `if (!data) return <div>Loading...</div>` (App.tsx
line 102): the UI shows the loading placeholder exactly when `data` is null. -/
def showsLoading (data : Option (List FeatureProps)) : Bool :=
  data.isNone

/-- The main 3D choropleth layer's fill-color accessor
`f => getFillColor(f.properties["TAUG2"])` (App.tsx line 123). -/
def mainLayerFillColor (f : FeatureProps) : Color :=
  getFillColor f.TAUG2

/-- The minimap layer's fill-color accessor
`f => getFillColor(f.properties["TAUG2"])` (App.tsx line 147). -/
def minimapLayerFillColor (f : FeatureProps) : Color :=
  getFillColor f.TAUG2

/-- The center-equality relation between the minimap and main cameras. -/
def CenterSynced (s : AppViewState) : Prop :=
  s.minimap.latitude = s.main.latitude ∧ s.minimap.longitude = s.main.longitude

/-- C1: for every finite `v`, `getFillColor` picks the bucket of the ascending
boundaries [100, 200, 300, 500, 800] with half-open intervals: `v < 100` gives
bucket 0 ([254,235,226]), each `low ≤ v < high` range its bucket, and
`800 ≤ v` gives bucket 5 ([122,1,119]); boundary values land in the upper
bucket. -/
theorem getFillColor_buckets (v : ℚ) :
    (v < 100 → getFillColor (some v) = [254, 235, 226]) ∧
    (100 ≤ v → v < 200 → getFillColor (some v) = [252, 197, 192]) ∧
    (200 ≤ v → v < 300 → getFillColor (some v) = [250, 159, 181]) ∧
    (300 ≤ v → v < 500 → getFillColor (some v) = [247, 104, 161]) ∧
    (500 ≤ v → v < 800 → getFillColor (some v) = [197, 27, 138]) ∧
    (800 ≤ v → getFillColor (some v) = [122, 1, 119]) := by
  refine ⟨fun h => ?_, fun h1 h2 => ?_, fun h1 h2 => ?_, fun h1 h2 => ?_,
         fun h1 h2 => ?_, fun h => ?_⟩ <;>
    simp only [getFillColor, COLOR_SCALE, COLOR_SCALE_domain, thresholdIndex] <;>
    repeat first
      | rw [if_pos (by linarith)]
      | rw [if_neg (by linarith)]
  all_goals rfl

/-- Witness for C1 at the two boundary inputs the claim singles out:
`v = 100` yields bucket 1 and `v = 800` yields bucket 5. -/
theorem getFillColor_buckets_boundary :
    getFillColor (some 100) = [252, 197, 192] ∧
    getFillColor (some 800) = [122, 1, 119] :=
  ⟨(getFillColor_buckets 100).2.1 (by norm_num) (by norm_num),
   (getFillColor_buckets 800).2.2.2.2.2 (by norm_num)⟩

/-- C2: for absent input (JS `null` or `undefined`, both `none` here) the
classifier returns the sentinel white [255,255,255], which is distinct from
all six bucket colors. -/
theorem getFillColor_null_sentinel :
    getFillColor none = [255, 255, 255] ∧
    [255, 255, 255] ∉ COLOR_SCALE_range :=
  ⟨rfl, by decide⟩

/-- C3: one `onViewStateChange` step replaces the main state wholesale, sets
the minimap latitude/longitude to the new main latitude/longitude, and leaves
the remaining minimap field (zoom) at its prior value. -/
theorem onViewStateChange_effect (s : AppViewState) (new : MainViewState) :
    (onViewStateChange s new).main = new ∧
    (onViewStateChange s new).minimap.latitude = new.latitude ∧
    (onViewStateChange s new).minimap.longitude = new.longitude ∧
    (onViewStateChange s new).minimap.zoom = s.minimap.zoom :=
  ⟨rfl, rfl, rfl, rfl⟩

lemma applyViewChanges_minimap_zoom (l : List MainViewState) (s : AppViewState) :
    (applyViewChanges s l).minimap.zoom = s.minimap.zoom := by
  induction l generalizing s with
  | nil => rfl
  | cons a t ih =>
      calc (applyViewChanges s (a :: t)).minimap.zoom
          = (applyViewChanges (onViewStateChange s a) t).minimap.zoom := rfl
        _ = (onViewStateChange s a).minimap.zoom := ih _
        _ = s.minimap.zoom := rfl

lemma applyViewChanges_centerSynced (l : List MainViewState) (s : AppViewState)
    (h : CenterSynced s) : CenterSynced (applyViewChanges s l) := by
  induction l generalizing s with
  | nil => exact h
  | cons a t ih => exact ih (onViewStateChange s a) ⟨rfl, rfl⟩

/-- C4: in every state reachable from `INITIAL_VIEW_STATE` by a sequence of
`onViewStateChange` steps, the minimap zoom still equals its initial value,
and the minimap latitude/longitude equal the main camera latitude/longitude
(in particular after any main-camera update). -/
theorem reachable_view_invariant (l : List MainViewState) :
    (applyViewChanges INITIAL_VIEW_STATE l).minimap.zoom =
        INITIAL_VIEW_STATE.minimap.zoom ∧
    (applyViewChanges INITIAL_VIEW_STATE l).minimap.latitude =
        (applyViewChanges INITIAL_VIEW_STATE l).main.latitude ∧
    (applyViewChanges INITIAL_VIEW_STATE l).minimap.longitude =
        (applyViewChanges INITIAL_VIEW_STATE l).main.longitude := by
  have h := applyViewChanges_centerSynced l INITIAL_VIEW_STATE ⟨rfl, rfl⟩
  exact ⟨applyViewChanges_minimap_zoom l INITIAL_VIEW_STATE, h.1, h.2⟩

/-- C5: when the one-shot load rejects (any fetch or parse error), `data`
stays at its initial `null`, the render guard shows the loading placeholder,
and that render is indistinguishable from the not-yet-loaded render. -/
theorem load_failure_perpetual_loading (msg : String) :
    dataAfterLoad (FetchOutcome.error msg) = none ∧
    showsLoading (dataAfterLoad (FetchOutcome.error msg)) = true ∧
    showsLoading (dataAfterLoad (FetchOutcome.error msg)) = showsLoading none :=
  ⟨rfl, rfl, rfl⟩

/-- C6: `getTooltip` is a pure function of the picked object: picking nothing
yields no tooltip; a feature with `price_median = 1234567` yields an HTML
fragment containing the locale-formatted "1,234,567"; a feature with no
`price_median` yields a fragment containing the literal "N/A". -/
theorem getTooltip_pure_spec (county name : Option String) (t t2 : Option ℚ) :
    getTooltip none = none ∧
    getTooltip (some none) = none ∧
    (∃ html, getTooltip (some (some ⟨county, name, some 1234567, t⟩)) = some html ∧
      ContainsSub html "1,234,567") ∧
    (∃ html, getTooltip (some (some ⟨county, name, none, t2⟩)) = some html ∧
      ContainsSub html "N/A") := by
  refine ⟨rfl, rfl, ⟨_, rfl, ?_⟩, ⟨_, rfl, ?_⟩⟩ <;> exact ⟨_, _, rfl⟩

/-- C7: an `onViewStateChange` step whose new latitude/longitude equal the
current minimap latitude/longitude leaves the minimap state unchanged as a
value. -/
theorem onViewStateChange_overview_idempotent (s : AppViewState) (new : MainViewState)
    (hlat : new.latitude = s.minimap.latitude)
    (hlon : new.longitude = s.minimap.longitude) :
    (onViewStateChange s new).minimap = s.minimap := by
  show { s.minimap with longitude := new.longitude, latitude := new.latitude } = s.minimap
  rw [hlat, hlon]

/-- Witness for C7: a concrete main-camera update centered on the initial
minimap center leaves the minimap state unchanged. -/
theorem onViewStateChange_overview_idempotent_spot :
    (onViewStateChange INITIAL_VIEW_STATE
        { latitude := 40.7128, longitude := -74.0060, zoom := 12,
          maxZoom := 16, pitch := 0, bearing := 0 }).minimap =
      INITIAL_VIEW_STATE.minimap :=
  onViewStateChange_overview_idempotent INITIAL_VIEW_STATE
    { latitude := 40.7128, longitude := -74.0060, zoom := 12,
      maxZoom := 16, pitch := 0, bearing := 0 } rfl rfl

lemma thresholdIndex_le_length (domain : List ℚ) (x : ℚ) :
    thresholdIndex domain x ≤ domain.length := by
  induction domain with
  | nil => simp [thresholdIndex]
  | cons b rest ih =>
      by_cases h : x < b <;> simp [thresholdIndex, h]
      exact ih

/-- C8: the classifier is deterministic and total: on every input (any finite
rational, or absent) it returns a value, always one of the seven fixed colors
(the sentinel or a bucket color). Side-effect freedom is inherent: it is a
plain function of its argument. -/
theorem getFillColor_total_deterministic (d : Option ℚ) :
    getFillColor d = getFillColor d ∧
    getFillColor d ∈ ([255, 255, 255] : Color) :: COLOR_SCALE_range := by
  refine ⟨rfl, ?_⟩
  cases d with
  | none => simp [getFillColor]
  | some v =>
      have h : thresholdIndex COLOR_SCALE_domain v ≤ 5 :=
        thresholdIndex_le_length COLOR_SCALE_domain v
      simp only [getFillColor, COLOR_SCALE]
      set i := thresholdIndex COLOR_SCALE_domain v with hi
      interval_cases i <;> simp [COLOR_SCALE_range]

/-- C9: the main 3D choropleth layer and the minimap layer assign every
feature the identical fill color: both apply `getFillColor` to the feature
field `TAUG2`. -/
theorem layers_fill_color_agree (f : FeatureProps) :
    mainLayerFillColor f = minimapLayerFillColor f ∧
    mainLayerFillColor f = getFillColor f.TAUG2 :=
  ⟨rfl, rfl⟩

/-- C10: in the fixed initial view state, before any interaction, the minimap
latitude/longitude already equal the main camera latitude/longitude, both
being (40.7128, -74.0060). -/
theorem initial_center_synced :
    INITIAL_VIEW_STATE.minimap.latitude = INITIAL_VIEW_STATE.main.latitude ∧
    INITIAL_VIEW_STATE.minimap.longitude = INITIAL_VIEW_STATE.main.longitude ∧
    INITIAL_VIEW_STATE.main.latitude = 40.7128 ∧
    INITIAL_VIEW_STATE.main.longitude = -74.0060 :=
  ⟨rfl, rfl, rfl, rfl⟩

end MonApp
